import Mathlib

/-!
Verification of the node-native-audio core against its specification.

Each TypeScript source function referenced by a claim is shallowly embedded as a
Lean definition: `Float32Array` values become `List Sample`, JavaScript numbers
used for confidences and measured times become `Rat`, fallible async calls
become `Except String` results, and the external native addons (the capture
provider, the DSP provider, the inference provider, the download provider) are
passed in as explicit arguments describing the outcome of the corresponding
awaited call.  Mutable object state becomes explicit state passing; object
aliasing, where a claim depends on it, is modelled with an explicit store from
addresses to objects.

The file is organised as definitions first (per package namespace), then the
supporting lemmas and the claim theorems.
-/

namespace Whisper

/-- One audio sample.  The windower only moves samples around (buffering and
concatenation), so their numeric type is irrelevant; `Int` keeps everything
decidable and executable. -/
abbrev Sample := Int

/-- `TypedArray.prototype.set(src, offset)` on a `Float32Array`: overwrite the
destination slice starting at `offset` with the contents of `src`, leaving the
rest unchanged.  (In `combineAudioBuffers` the write always fits.) -/
def typedArraySet (dst src : List Sample) (offset : Nat) : List Sample :=
  dst.take offset ++ src ++ dst.drop (offset + src.length)

/-- Embedding of `WhisperTranscriber.combineAudioBuffers`
(whisper-transcriber.ts lines 106-117): compute the total length, allocate a
zero-filled array of that length, and copy each buffered frame in at a running
offset, in buffer order. -/
def combineAudioBuffers (audioBuffer : List (List Sample)) : List Sample :=
  let totalLength := audioBuffer.foldl (fun sum buffer => sum + buffer.length) 0
  let combined : List Sample := List.replicate totalLength 0
  (audioBuffer.foldl
    (fun acc buffer => (typedArraySet acc.1 buffer acc.2, acc.2 + buffer.length))
    (combined, 0)).1

/-- Mutable fields of a `WhisperTranscriber` that the windowing algorithm
touches (whisper-transcriber.ts lines 9-12). -/
structure TranscriberState where
  isInitialized : Bool
  isTranscribing : Bool
  audioBuffer : List (List Sample)
deriving DecidableEq, Repr

/-- Embedding of `WhisperTranscriber.processAudio` (whisper-transcriber.ts lines
77-101).  Returns the updated state together with the list of concatenated audio
arrays submitted to `transcribeAudio` during the call (the flushes).  The
simulated model call always resolves, so the catch branch is unreachable. -/
def processAudio (s : TranscriberState) (audioData : List Sample) :
    TranscriberState × List (List Sample) :=
  if !s.isInitialized || !s.isTranscribing then (s, [])
  else
    let buffer := s.audioBuffer ++ [audioData]
    if 10 ≤ buffer.length then
      ({ s with audioBuffer := [] }, [combineAudioBuffers buffer])
    else
      ({ s with audioBuffer := buffer }, [])

/-- Embedding of `WhisperTranscriber.stop` (whisper-transcriber.ts lines
181-192): clear the transcribing flag, then flush any remaining buffered audio
through `transcribeAudio` once. -/
def stop (s : TranscriberState) : TranscriberState × List (List Sample) :=
  let s1 : TranscriberState := { s with isTranscribing := false }
  if 0 < s1.audioBuffer.length then
    ({ s1 with audioBuffer := [] }, [combineAudioBuffers s1.audioBuffer])
  else (s1, [])

/-- Feed a sequence of frames through `processAudio` one at a time, collecting
every flush in order. -/
def processFrames (s : TranscriberState) :
    List (List Sample) → TranscriberState × List (List Sample)
  | [] => (s, [])
  | f :: fs =>
    let r1 := processAudio s f
    let r2 := processFrames r1.1 fs
    (r2.1, r1.2 ++ r2.2)

/-- Outcome of `callWhisperModel`: the text and confidence returned by the
inference provider. -/
structure InferenceOutcome where
  text : String
  confidence : Rat
deriving DecidableEq, Repr

/-- Payload of a `transcription` event (types.ts `TranscriptionResult`, without
the optional segments, which `transcribeAudio` never fills in). -/
structure TranscriptionResultE where
  text : String
  confidence : Rat
  startTime : Rat
  endTime : Rat
deriving DecidableEq, Repr

/-- Payload of the windower's `stats` event (types.ts `WhisperStats`). -/
structure WhisperStatsE where
  processingTime : Rat
  tokensProcessed : Nat
  segmentsGenerated : Nat
  averageConfidence : Rat
deriving DecidableEq, Repr

/-- JavaScript whitespace as tested by `String.prototype.trim` (restricted to
the common ASCII whitespace characters, which suffices here). -/
def isJsWhitespace (c : Char) : Bool :=
  c = ' ' ∨ c = '\t' ∨ c = '\n' ∨ c = '\r' ∨ c = '\x0b' ∨ c = '\x0c'

/-- JavaScript `s.trim()`: remove leading and trailing whitespace. -/
def trimString (s : String) : String :=
  ⟨((s.data.dropWhile isJsWhitespace).reverse.dropWhile isJsWhitespace).reverse⟩

/-- JavaScript `this.config.confidenceThreshold || 0.5`: `||` substitutes the
default both when the field is absent (`undefined`) and when it is `0`, since
both are falsy. -/
def thresholdOrDefault : Option Rat → Rat
  | none => mkRat 1 2
  | some v => if v = 0 then mkRat 1 2 else v

/-- Embedding of the event-emission logic of `WhisperTranscriber.transcribeAudio`
(whisper-transcriber.ts lines 122-158) for a completed (non-throwing) inference.
`processingTime` is the measured `performance.now()` difference and `now` the
value of `Date.now()` after inference.  Returns the `transcription` event and
the `stats` event that the call emits, if any: the source builds and emits both
of them inside the single `if` that checks the trimmed text and the confidence
threshold. -/
def transcribeAudioEvents (confidenceThreshold : Option Rat)
    (processingTime now : Rat) (transcription : InferenceOutcome) :
    Option TranscriptionResultE × Option WhisperStatsE :=
  if trimString transcription.text ≠ "" ∧
      thresholdOrDefault confidenceThreshold ≤ transcription.confidence then
    (some { text := transcription.text
            confidence := transcription.confidence
            startTime := now - processingTime
            endTime := now },
     some { processingTime := processingTime
            tokensProcessed := (transcription.text.splitOn " ").length
            segmentsGenerated := 1
            averageConfidence := transcription.confidence })
  else
    (none, none)

end Whisper

namespace Processor

/-- Samples processed by the pipeline; as in the windower, only moved around. -/
abbrev Sample := Whisper.Sample

/-- `echoCancellation` stage configuration (audio-processor-core types). -/
structure EchoCancellationCfg where
  enabled : Bool
  delay : Int
  filterLength : Int
deriving DecidableEq, Repr

/-- `noiseSuppression` stage configuration. -/
structure NoiseSuppressionCfg where
  enabled : Bool
  level : String
deriving DecidableEq, Repr

/-- `automaticGainControl` stage configuration. -/
structure AutomaticGainControlCfg where
  enabled : Bool
  targetLevel : Int
  compressionGain : Int
deriving DecidableEq, Repr

/-- The value of an `AudioProcessorConfig` object: each stage sub-object is
optional (`configure` may merge-patch a config whose stage fields are absent,
and `applyProcessing` reads them with optional chaining `?.enabled`). -/
structure AudioProcessorConfig where
  echoCancellation : Option EchoCancellationCfg
  noiseSuppression : Option NoiseSuppressionCfg
  automaticGainControl : Option AutomaticGainControlCfg
  simdOptimization : Option Bool
deriving DecidableEq, Repr

/-- JavaScript `cfg.stage?.enabled` (undefined, hence falsy, when the stage
object is absent). -/
def stageEnabled {α : Type} (stage : Option α) (enabled : α → Bool) : Bool :=
  (stage.map enabled).getD false

/-- Embedding of `AudioProcessor.applyProcessing` (audio-processor.ts lines
107-126).  The three per-stage DSP transforms are supplied as arguments `ec`,
`ns`, `agc` (in the source they are the placeholder `applyEchoCancellation`,
`applyNoiseSuppression` and `applyAutomaticGainControl`, which return their
input; see `placeholderStage`).  A stage runs only when its config object is
present and enabled; the stages are chained in the fixed order
echo cancellation, noise suppression, automatic gain control. -/
def applyProcessing (cfg : AudioProcessorConfig)
    (ec ns agc : List Sample → Nat → Nat → List Sample)
    (audioData : List Sample) (sampleRate channels : Nat) : List Sample :=
  let d0 := audioData
  let d1 := if stageEnabled cfg.echoCancellation EchoCancellationCfg.enabled
    then ec d0 sampleRate channels else d0
  let d2 := if stageEnabled cfg.noiseSuppression NoiseSuppressionCfg.enabled
    then ns d1 sampleRate channels else d1
  let d3 := if stageEnabled cfg.automaticGainControl AutomaticGainControlCfg.enabled
    then agc d2 sampleRate channels else d2
  d3

/-- The placeholder stage transforms of the source (audio-processor.ts lines
131-153): each returns its input unchanged. -/
def placeholderStage (audioData : List Sample) (_sampleRate _channels : Nat) :
    List Sample := audioData

/-- The processor flags mutated by `processAudio` (audio-processor.ts 9-11). -/
structure ProcessorRunState where
  isInitialized : Bool
  isProcessing : Bool
deriving DecidableEq, Repr

/-- Payload of a `processed` event (`ProcessedAudioData`). -/
structure ProcessedAudioData where
  data : List Sample
  sampleRate : Nat
  channels : Nat
  timestamp : Nat
deriving DecidableEq, Repr

/-- Payload of the processor's `stats` event (`AudioProcessorStats`). -/
structure AudioProcessorStats where
  processingTime : Rat
  samplesProcessed : Nat
  echoSuppression : Nat
  noiseSuppression : Nat
  gainAdjustment : Nat
deriving DecidableEq, Repr

/-- Embedding of `AudioProcessor.processAudio` (audio-processor.ts lines
58-102): throws when uninitialized, otherwise sets `isProcessing`, runs the
chain, and emits one `processed` and one `stats` event.  `now` is `Date.now()`
and `processingTime` the measured `performance.now()` difference. -/
def processorProcessAudio (st : ProcessorRunState) (cfg : AudioProcessorConfig)
    (ec ns agc : List Sample → Nat → Nat → List Sample)
    (audioData : List Sample) (sampleRate channels : Nat)
    (now : Nat) (processingTime : Rat) :
    Except String (ProcessorRunState × ProcessedAudioData × AudioProcessorStats) :=
  if !st.isInitialized then
    Except.error "Audio processor not initialized"
  else
    Except.ok
      ({ isInitialized := st.isInitialized, isProcessing := true },
       { data := applyProcessing cfg ec ns agc audioData sampleRate channels
         sampleRate := sampleRate
         channels := channels
         timestamp := now },
       { processingTime := processingTime
         samplesProcessed := audioData.length
         echoSuppression := 0
         noiseSuppression := 0
         gainAdjustment := 0 })

/-! Aliasing model for `getConfig` (claim about copy-on-read).  A JavaScript
object graph is modelled by a store mapping addresses to objects: top-level
`AudioProcessorConfig` objects hold the *addresses* of their three nested stage
objects, exactly as the spread `{ ...this.config }` copies references, not the
referenced objects. -/

/-- A top-level config object as it sits on the heap: three references to the
stage objects plus the inline primitive flag.  (After the constructor runs, all
three nested objects exist, audio-processor.ts lines 15-21.) -/
structure ConfigRefs where
  echoCancellationRef : Nat
  noiseSuppressionRef : Nat
  automaticGainControlRef : Nat
  simdOptimization : Bool
deriving DecidableEq, Repr

/-- The object store: top-level config objects and the three kinds of nested
stage objects, each addressed by `Nat`. -/
structure Store where
  top : Nat → ConfigRefs
  echoCancellation : Nat → EchoCancellationCfg
  noiseSuppression : Nat → NoiseSuppressionCfg
  automaticGainControl : Nat → AutomaticGainControlCfg

/-- The configuration value observable from the top-level object at address
`r`: what any later read of `this.config`'s contents sees. -/
structure ConfigValue where
  echoCancellation : EchoCancellationCfg
  noiseSuppression : NoiseSuppressionCfg
  automaticGainControl : AutomaticGainControlCfg
  simdOptimization : Bool
deriving DecidableEq, Repr

/-- Dereference a top-level config object into the full value it denotes. -/
def readConfig (h : Store) (r : Nat) : ConfigValue :=
  { echoCancellation := h.echoCancellation (h.top r).echoCancellationRef
    noiseSuppression := h.noiseSuppression (h.top r).noiseSuppressionRef
    automaticGainControl := h.automaticGainControl (h.top r).automaticGainControlRef
    simdOptimization := (h.top r).simdOptimization }

/-- Embedding of `AudioProcessor.getConfig` (audio-processor.ts lines 175-177):
`return { ...this.config }` allocates a fresh top-level object at `freshRef`
whose fields — including the three nested *references* — are copied verbatim
from the internal object at `internalRef`. -/
def getConfigShallow (h : Store) (internalRef freshRef : Nat) : Store :=
  { h with
    top := fun a => if a = freshRef then h.top internalRef else h.top a }

/-- Caller-side mutation of a top-level field of the object at `r`
(e.g. `cfg.simdOptimization = b`). -/
def setTopSimd (h : Store) (r : Nat) (b : Bool) : Store :=
  { h with
    top := fun a => if a = r then
        { h.top a with simdOptimization := b } else h.top a }

/-- Caller-side mutation of a nested stage object through its reference
(e.g. `cfg.echoCancellation.enabled = b`). -/
def setEchoEnabled (h : Store) (r : Nat) (b : Bool) : Store :=
  { h with
    echoCancellation := fun a => if a = r then
        { h.echoCancellation a with enabled := b } else h.echoCancellation a }

/-- A concrete store holding the constructor-default configuration
(audio-processor.ts lines 15-21): the internal `this.config` object lives at
top-level address 0 and each stage object at address 0 of its store; address 1
is free for the object `getConfig` allocates. -/
def demoStore : Store :=
  { top := fun _ =>
      { echoCancellationRef := 0, noiseSuppressionRef := 0
        automaticGainControlRef := 0, simdOptimization := true }
    echoCancellation := fun _ => { enabled := true, delay := 0, filterLength := 256 }
    noiseSuppression := fun _ => { enabled := true, level := "moderate" }
    automaticGainControl := fun _ =>
      { enabled := true, targetLevel := -18, compressionGain := 9 } }

end Processor

namespace Models

/-- `WhisperModel` record (whisper-native-core types.ts lines 33-40). -/
structure WhisperModel where
  name : String
  size : String
  language : String
  url : String
  localPath : Option String
  isDownloaded : Bool
deriving DecidableEq, Repr

/-- The `Map<string, WhisperModel>` held by `ModelManager`, as an association
list in insertion order. -/
abbrev ModelMap := List (String × WhisperModel)

/-- `this.models.get(name)`. -/
def lookupModel (models : ModelMap) (name : String) : Option WhisperModel :=
  (models.find? (fun p => p.1 = name)).map Prod.snd

/-- Replace the entry for `name` (mutating the stored record in place). -/
def setModel (models : ModelMap) (name : String) (m : WhisperModel) : ModelMap :=
  models.map (fun p => if p.1 = name then (p.1, m) else p)

/-- The default model catalogue registered by `initializeDefaultModels`. -/
def defaultModels : ModelMap :=
  [("tiny",
    { name := "tiny", size := "39 MB", language := "multilingual"
      url := "https://huggingface.co/ggerganov/whisper.cpp/resolve/main/ggml-tiny.bin"
      localPath := none, isDownloaded := false }),
   ("base",
    { name := "base", size := "74 MB", language := "multilingual"
      url := "https://huggingface.co/ggerganov/whisper.cpp/resolve/main/ggml-base.bin"
      localPath := none, isDownloaded := false }),
   ("small",
    { name := "small", size := "244 MB", language := "multilingual"
      url := "https://huggingface.co/ggerganov/whisper.cpp/resolve/main/ggml-small.bin"
      localPath := none, isDownloaded := false }),
   ("medium",
    { name := "medium", size := "769 MB", language := "multilingual"
      url := "https://huggingface.co/ggerganov/whisper.cpp/resolve/main/ggml-medium.bin"
      localPath := none, isDownloaded := false }),
   ("large",
    { name := "large", size := "1550 MB", language := "multilingual"
      url := "https://huggingface.co/ggerganov/whisper.cpp/resolve/main/ggml-large.bin"
      localPath := none, isDownloaded := false })]

/-- Embedding of `ModelManager.downloadModel` (model-manager source, lines
150-176).  `provider` is the outcome of the awaited download (the simulated
transfer in the source); the catch branch logs and rethrows, so on provider
failure nothing is written to the model record, whose fields are only assigned
after the await resolves.  Returns the updated map and the call result. -/
def downloadModel (models : ModelMap) (downloadPath name : String)
    (provider : Except String Unit) : ModelMap × Except String Unit :=
  match lookupModel models name with
  | none => (models, Except.error ("Model " ++ name ++ " not found"))
  | some model =>
    if model.isDownloaded then
      (models, Except.ok ())
    else
      match provider with
      | Except.error e => (models, Except.error e)
      | Except.ok _ =>
        (setModel models name
          { model with
            isDownloaded := true
            localPath := some (downloadPath ++ "/" ++ name ++ ".bin") },
         Except.ok ())

end Models

namespace Devices

/-- `AudioDeviceType` enumeration (audio-capture-core types). -/
inductive AudioDeviceType
  | microphone
  | speakers
  | systemAudio
  | loopback
deriving DecidableEq, Repr

/-- `AudioFormat` record. -/
structure AudioFormatE where
  sampleRate : Nat
  channels : Nat
  bitsPerSample : Nat
  signed : Bool
  float : Bool
deriving DecidableEq, Repr

/-- A processed `AudioDevice` snapshot. -/
structure AudioDevice where
  id : String
  name : String
  type : AudioDeviceType
  isDefault : Bool
  isActive : Bool
  supportedFormats : List AudioFormatE
  maxChannels : Nat
  maxSampleRate : Nat
  minSampleRate : Nat
deriving DecidableEq, Repr

/-- Raw device data as returned by the native layer, before
`DeviceManager.processDevice` fills in defaults; optional fields model
properties the native object may omit (`undefined`). -/
structure RawDevice where
  id : String
  name : String
  type : String
  isDefault : Option Bool
  isActive : Option Bool
  supportedFormats : Option (List AudioFormatE)
  maxChannels : Option Nat
  maxSampleRate : Option Nat
  minSampleRate : Option Nat
deriving DecidableEq, Repr

/-- JavaScript `v || d` on an optionally-present number: the default replaces
both `undefined` and `0` (falsy). -/
def jsOrNat (v : Option Nat) (d : Nat) : Nat :=
  match v with
  | none => d
  | some x => if x = 0 then d else x

/-- JavaScript `s.toLowerCase()` (character-wise lowering suffices for the
device-type tags that occur). -/
def toLowerString (s : String) : String :=
  ⟨s.data.map Char.toLower⟩

/-- Embedding of `DeviceManager.mapDeviceType` (device-manager.ts lines
142-159): loose string matching with a silent `MICROPHONE` default. -/
def mapDeviceType (nativeType : String) : AudioDeviceType :=
  let s := toLowerString nativeType
  if s = "microphone" ∨ s = "mic" ∨ s = "input" then AudioDeviceType.microphone
  else if s = "speakers" ∨ s = "output" then AudioDeviceType.speakers
  else if s = "system_audio" ∨ s = "system" then AudioDeviceType.systemAudio
  else if s = "loopback" then AudioDeviceType.loopback
  else AudioDeviceType.microphone

/-- Embedding of `DeviceManager.processDevice` (device-manager.ts lines
125-137). -/
def processDevice (rawDevice : RawDevice) : AudioDevice :=
  { id := rawDevice.id
    name := rawDevice.name
    type := mapDeviceType rawDevice.type
    isDefault := rawDevice.isDefault.getD false
    isActive := rawDevice.isActive.getD false
    supportedFormats := rawDevice.supportedFormats.getD []
    maxChannels := jsOrNat rawDevice.maxChannels 2
    maxSampleRate := jsOrNat rawDevice.maxSampleRate 48000
    minSampleRate := jsOrNat rawDevice.minSampleRate 8000 }

/-- Mutable state of a `DeviceManager` together with the initialization flag of
the `NativeAudioCapture` instance it owns (device-manager.ts lines 8-11;
native-bindings lines 243-244). -/
structure DeviceManagerState where
  nativeInitialized : Bool
  cachedDevices : List AudioDevice
  lastRefreshTime : Nat
deriving DecidableEq, Repr

/-- Embedding of `DeviceManager.getDevices` (device-manager.ts lines 20-44).
`now` is `Date.now()`; `addonDevices` is the outcome of the native addon's
`getDevices()` call, which the wrapped `NativeAudioCapture.getDevices` replaces
with a throw when the addon is not initialized.  The try/catch around the
provider call converts any failure into an empty result plus a `console.error`
side-channel message (returned as the third component), so the function always
returns normally — nothing is propagated to the caller. -/
def getDevices (s : DeviceManagerState) (now : Nat)
    (addonDevices : Except String (List RawDevice)) :
    DeviceManagerState × List AudioDevice × List String :=
  if 0 < s.cachedDevices.length ∧ now - s.lastRefreshTime < 5000 then
    (s, s.cachedDevices, [])
  else
    match (if s.nativeInitialized then addonDevices
           else Except.error "Native audio capture not initialized") with
    | Except.ok devices =>
      let processed := devices.map processDevice
      ({ s with cachedDevices := processed, lastRefreshTime := now },
       processed, [])
    | Except.error e =>
      (s, [], ["Failed to get audio devices: " ++ e])

end Devices

namespace Capture

open Devices

/-- `CaptureStats` counters (audio-capture-core types). -/
structure CaptureStats where
  samplesCaptured : Nat
  bytesCaptured : Nat
  duration : Nat
  sampleRate : Nat
  channels : Nat
  bufferUnderruns : Nat
  bufferOverruns : Nat
  errors : Nat
deriving DecidableEq, Repr

/-- `AudioCaptureSession` record created by `startCapture`
(audio-capture.ts lines 110-126). -/
structure AudioCaptureSession where
  id : String
  deviceId : String
  format : AudioFormatE
  startTime : Nat
  isActive : Bool
  stats : CaptureStats
deriving DecidableEq, Repr

/-- Options accepted by `startCapture`. -/
structure AudioCaptureOptions where
  deviceId : Option String
  format : Option AudioFormatE
deriving DecidableEq, Repr

/-- Events emitted by an `AudioCapture` instance, in emission order. -/
inductive CaptureEvent
  | start (deviceId : String)
  | stop
  | errorEv (code : String) (message : String)
deriving DecidableEq, Repr

/-- Mutable state of an `AudioCapture` instance (audio-capture.ts lines 18-22):
the initialization flag of its own `NativeAudioCapture`, the `DeviceManager` it
owns (which wraps a second, independent `NativeAudioCapture`), the current
session and the capturing flag. -/
structure AudioCaptureState where
  nativeInitialized : Bool
  dm : DeviceManagerState
  currentSession : Option AudioCaptureSession
  isCapturing : Bool
deriving DecidableEq, Repr

/-- The state of a freshly constructed `AudioCapture` (both native addons
loaded, empty device cache). -/
def initialCaptureState : AudioCaptureState :=
  { nativeInitialized := true
    dm := { nativeInitialized := true, cachedDevices := [], lastRefreshTime := 0 }
    currentSession := none
    isCapturing := false }

/-- The default capture format (audio-capture.ts lines 96-104). -/
def defaultFormat : AudioFormatE :=
  { sampleRate := 16000, channels := 1, bitsPerSample := 16
    signed := true, float := false }

/-- `devices.filter(type).find(isDefault)` — `AudioCapture.getDefaultDevice`
(audio-capture.ts lines 65-68) for microphones. -/
def findDefaultMicrophone (devices : List AudioDevice) : Option AudioDevice :=
  (devices.filter (fun d => d.type = AudioDeviceType.microphone)).find?
    (fun d => d.isDefault)

/-- Embedding of `AudioCapture.startCapture` (audio-capture.ts lines 73-151).
`now` is `Date.now()` throughout the call (session ids are built from it as
`session_` followed by the timestamp); `addonDevices` is the outcome the device
manager's addon would produce for an enumeration during this call, and
`addonStart` the outcome of the native `start` call.  Returns the new state,
the emitted events in order, and the call result (`Except.error` when the
source rethrows).  Failures inside the `try` emit a `START_FAILED` error event
before rethrowing; a native `start` failure additionally forwards the native
layer's own `START_FAILED` event. -/
def startCapture (s : AudioCaptureState) (options : AudioCaptureOptions)
    (now : Nat) (addonDevices : Except String (List RawDevice))
    (addonStart : Except String Unit) :
    AudioCaptureState × List CaptureEvent × Except String Unit :=
  if s.isCapturing then
    (s, [], Except.error "Audio capture is already running")
  else
    let resolved : DeviceManagerState × Except String String :=
      match options.deviceId with
      | some d => (s.dm, Except.ok d)
      | none =>
        let r := getDevices s.dm now addonDevices
        match findDefaultMicrophone r.2.1 with
        | none => (r.1, Except.error "No default microphone device found")
        | some dev => (r.1, Except.ok dev.id)
    match resolved.2 with
    | Except.error e =>
      ({ s with dm := resolved.1 },
       [CaptureEvent.errorEv "START_FAILED" e], Except.error e)
    | Except.ok deviceId =>
      let r2 := getDevices resolved.1 now addonDevices
      match r2.2.1.find? (fun d => d.id = deviceId) with
      | none =>
        ({ s with dm := r2.1 },
         [CaptureEvent.errorEv "START_FAILED"
            ("Device with ID " ++ deviceId ++ " not found")],
         Except.error ("Device with ID " ++ deviceId ++ " not found"))
      | some _ =>
        let format := options.format.getD defaultFormat
        match (if s.nativeInitialized then addonStart
               else Except.error "Native audio capture not initialized") with
        | Except.error e =>
          ({ s with dm := r2.1 },
           (if s.nativeInitialized then
              [CaptureEvent.errorEv "START_FAILED" e,
               CaptureEvent.errorEv "START_FAILED" e]
            else [CaptureEvent.errorEv "START_FAILED" e]),
           Except.error e)
        | Except.ok _ =>
          ({ s with
             dm := r2.1
             currentSession := some
               { id := "session_" ++ toString now
                 deviceId := deviceId
                 format := format
                 startTime := now
                 isActive := true
                 stats :=
                   { samplesCaptured := 0, bytesCaptured := 0, duration := 0
                     sampleRate := format.sampleRate
                     channels := format.channels
                     bufferUnderruns := 0, bufferOverruns := 0, errors := 0 } }
             isCapturing := true },
           [CaptureEvent.start deviceId], Except.ok ())

/-- Embedding of `AudioCapture.stopCapture` (audio-capture.ts lines 156-191):
an immediate successful no-op when not capturing; otherwise asks the native
layer to stop (itself a no-op when the addon is gone), finalizes the session
stats and emits `stop`.  A native stop failure emits `STOP_FAILED` (once
forwarded from the native layer, once from the catch) and rethrows. -/
def stopCapture (s : AudioCaptureState) (now : Nat)
    (addonStop : Except String Unit) :
    AudioCaptureState × List CaptureEvent × Except String Unit :=
  if !s.isCapturing then
    (s, [], Except.ok ())
  else
    match (if s.nativeInitialized then addonStop else Except.ok ()) with
    | Except.error e =>
      (s, [CaptureEvent.errorEv "STOP_FAILED" e,
           CaptureEvent.errorEv "STOP_FAILED" e], Except.error e)
    | Except.ok _ =>
      ({ s with
         currentSession := s.currentSession.map (fun sess =>
           { sess with
             isActive := false
             stats := { sess.stats with duration := now - sess.startTime } })
         isCapturing := false },
       [CaptureEvent.stop], Except.ok ())

/-- Embedding of `AudioCapture.dispose` (audio-capture.ts lines 217-224)
together with `NativeAudioCapture.dispose` (lines 415-427) and
`DeviceManager.dispose` (device-manager.ts lines 164-166): stop if capturing,
then dispose the owned native handle and the device manager's native handle.
Each native dispose clears its initialization flag only when the addon call
succeeds — its catch swallows the failure.  No disposed flag of any kind is
recorded on the `AudioCapture` object itself. -/
def dispose (s : AudioCaptureState) (now : Nat)
    (addonStop addonDispose dmAddonDispose : Except String Unit) :
    AudioCaptureState × List CaptureEvent × Except String Unit :=
  let step0 := if s.isCapturing then stopCapture s now addonStop
    else (s, [], Except.ok ())
  match step0.2.2 with
  | Except.error e => (step0.1, step0.2.1, Except.error e)
  | Except.ok _ =>
    let s1 := step0.1
    let s2 := if s1.nativeInitialized then
        (match addonDispose with
         | Except.ok _ => { s1 with nativeInitialized := false }
         | Except.error _ => s1)
      else s1
    let s3 := if s2.dm.nativeInitialized then
        (match dmAddonDispose with
         | Except.ok _ =>
           { s2 with dm := { s2.dm with nativeInitialized := false } }
         | Except.error _ => s2)
      else s2
    (s3, step0.2.1, Except.ok ())

/-- `Except.isOk` as a plain boolean. -/
def resultOk {ε α : Type} : Except ε α → Bool
  | Except.ok _ => true
  | Except.error _ => false

/-- A raw microphone device used in the concrete scenarios below. -/
def demoRawMic : RawDevice :=
  { id := "mic1", name := "Built-in Microphone", type := "microphone"
    isDefault := some true, isActive := some true
    supportedFormats := some [], maxChannels := some 1
    maxSampleRate := some 48000, minSampleRate := some 8000 }

/-- First `startCapture` of the collision scenario, at `Date.now() = 1000`. -/
def demoStart1 : AudioCaptureState × List CaptureEvent × Except String Unit :=
  startCapture initialCaptureState
    { deviceId := none, format := none } 1000
    (Except.ok [demoRawMic]) (Except.ok ())

/-- The `stopCapture` between the two starts, still at `Date.now() = 1000`. -/
def demoStop1 : AudioCaptureState × List CaptureEvent × Except String Unit :=
  stopCapture demoStart1.1 1000 (Except.ok ())

/-- Second `startCapture`, issued after the successful stop but within the same
millisecond (`Date.now()` still 1000). -/
def demoStart2 : AudioCaptureState × List CaptureEvent × Except String Unit :=
  startCapture demoStop1.1
    { deviceId := none, format := none } 1000
    (Except.ok [demoRawMic]) (Except.ok ())

/-- A variant of the second start issued one second later
(`Date.now() = 2000`), used to witness id distinctness across calls with
different timestamps. -/
def demoStart3 : AudioCaptureState × List CaptureEvent × Except String Unit :=
  startCapture demoStop1.1
    { deviceId := none, format := none } 2000
    (Except.ok [demoRawMic]) (Except.ok ())

/-- Dummy session used only as the `Option.getD` fallback below. -/
def fallbackSession : AudioCaptureSession :=
  { id := "", deviceId := "", format := defaultFormat, startTime := 0
    isActive := false
    stats := { samplesCaptured := 0, bytesCaptured := 0, duration := 0
               sampleRate := 0, channels := 0, bufferUnderruns := 0
               bufferOverruns := 0, errors := 0 } }

/-- The session created by the first start of the scenario. -/
def demoSession1 : AudioCaptureSession :=
  demoStart1.1.currentSession.getD fallbackSession

/-- The session created by the later start at `Date.now() = 2000`. -/
def demoSession3 : AudioCaptureSession :=
  demoStart3.1.currentSession.getD fallbackSession

end Capture

/-! ## Supporting lemmas and claim theorems -/

namespace Whisper

lemma sum_length_foldl (bufs : List (List Sample)) (n : Nat) :
    bufs.foldl (fun sum buffer => sum + buffer.length) n
      = n + (bufs.map List.length).sum := by
  induction bufs generalizing n with
  | nil => simp
  | cons b bs ih => simp [List.foldl_cons, ih, Nat.add_assoc]

lemma combine_fold_general (bufs : List (List Sample)) (pre : List Sample) :
    (bufs.foldl
      (fun acc buffer => (typedArraySet acc.1 buffer acc.2, acc.2 + buffer.length))
      (pre ++ List.replicate ((bufs.map List.length).sum) 0, pre.length))
      = (pre ++ bufs.flatten, pre.length + (bufs.map List.length).sum) := by
  induction bufs generalizing pre with
  | nil => simp
  | cons b bs ih =>
    rw [List.foldl_cons]
    have hrep : List.replicate (((b :: bs).map List.length).sum) (0 : Sample)
        = List.replicate b.length 0 ++ List.replicate ((bs.map List.length).sum) 0 := by
      rw [show ((b :: bs).map List.length).sum = b.length + (bs.map List.length).sum from by
        simp]
      exact List.replicate_add b.length ((bs.map List.length).sum) 0
    have hset : typedArraySet
        (pre ++ List.replicate (((b :: bs).map List.length).sum) 0) b pre.length
        = (pre ++ b) ++ List.replicate ((bs.map List.length).sum) 0 := by
      rw [hrep, ← List.append_assoc]
      unfold typedArraySet
      rw [show pre ++ List.replicate b.length 0 ++ List.replicate ((bs.map List.length).sum) 0
            = pre ++ (List.replicate b.length 0 ++ List.replicate ((bs.map List.length).sum) 0)
          from by simp,
        List.take_left, List.drop_append_eq_append_drop]
      simp
    rw [hset]
    have := ih (pre ++ b)
    rw [List.length_append] at this
    rw [this]
    simp [Nat.add_assoc]

/-- The concatenation routine is exactly list concatenation in arrival order. -/
lemma combine_eq_flatten (bufs : List (List Sample)) :
    combineAudioBuffers bufs = bufs.flatten := by
  unfold combineAudioBuffers
  rw [sum_length_foldl]
  have := combine_fold_general bufs []
  simp only [List.nil_append, List.length_nil] at this
  simp [this]

lemma processAudio_append (s : TranscriberState) (f : List Sample)
    (hI : s.isInitialized = true) (hT : s.isTranscribing = true)
    (hlen : s.audioBuffer.length + 1 < 10) :
    processAudio s f = ({ s with audioBuffer := s.audioBuffer ++ [f] }, []) := by
  unfold processAudio
  rw [hI, hT]
  simp only [Bool.not_true, Bool.or_self, Bool.false_eq_true, if_false]
  rw [if_neg]
  simp
  omega

lemma processAudio_flush (s : TranscriberState) (f : List Sample)
    (hI : s.isInitialized = true) (hT : s.isTranscribing = true)
    (hlen : s.audioBuffer.length + 1 = 10) :
    processAudio s f
      = ({ s with audioBuffer := [] }, [combineAudioBuffers (s.audioBuffer ++ [f])]) := by
  unfold processAudio
  rw [hI, hT]
  simp only [Bool.not_true, Bool.or_self, Bool.false_eq_true, if_false]
  rw [if_pos]
  simp
  omega

lemma processFrames_cons (s : TranscriberState) (f : List Sample)
    (fs : List (List Sample)) :
    processFrames s (f :: fs)
      = ((processFrames (processAudio s f).1 fs).1,
         (processAudio s f).2 ++ (processFrames (processAudio s f).1 fs).2) := rfl

lemma processFrames_fill (frames : List (List Sample)) (s : TranscriberState)
    (hI : s.isInitialized = true) (hT : s.isTranscribing = true)
    (hlen : s.audioBuffer.length + frames.length = 10) (hne : frames ≠ []) :
    processFrames s frames
      = ({ s with audioBuffer := [] },
         [combineAudioBuffers (s.audioBuffer ++ frames)]) := by
  induction frames generalizing s with
  | nil => exact absurd rfl hne
  | cons f fs ih =>
    by_cases hfs : fs = []
    · subst hfs
      have h1 : s.audioBuffer.length + 1 = 10 := by
        simpa using hlen
      rw [processFrames_cons, processAudio_flush s f hI hT h1]
      simp [processFrames]
    · have h1 : s.audioBuffer.length + 1 < 10 := by
        have hfs1 : 1 ≤ fs.length := by
          cases fs with
          | nil => exact absurd rfl hfs
          | cons a as => simp
        simp only [List.length_cons] at hlen
        omega
      have h2 : ({ s with audioBuffer := s.audioBuffer ++ [f] } :
          TranscriberState).audioBuffer.length + fs.length = 10 := by
        show (s.audioBuffer ++ [f]).length + fs.length = 10
        simp only [List.length_append, List.length_singleton,
          List.length_cons, List.length_nil] at hlen ⊢
        omega
      rw [processFrames_cons, processAudio_append s f hI hT h1]
      simp only []
      rw [ih { s with audioBuffer := s.audioBuffer ++ [f] } hI hT h2 hfs]
      simp

lemma processFrames_state_flags (frames : List (List Sample)) (s : TranscriberState) :
    (processFrames s frames).1.isInitialized = s.isInitialized ∧
    (processFrames s frames).1.isTranscribing = s.isTranscribing := by
  induction frames generalizing s with
  | nil => exact ⟨rfl, rfl⟩
  | cons f fs ih =>
    unfold processFrames
    have hpa : (processAudio s f).1.isInitialized = s.isInitialized ∧
        (processAudio s f).1.isTranscribing = s.isTranscribing := by
      unfold processAudio
      dsimp only
      split
      · exact ⟨rfl, rfl⟩
      · split <;> exact ⟨rfl, rfl⟩
    obtain ⟨h1, h2⟩ := ih (processAudio s f).1
    exact ⟨h1.trans hpa.1, h2.trans hpa.2⟩

lemma processFrames_append_split (xs ys : List (List Sample)) (s : TranscriberState) :
    processFrames s (xs ++ ys)
      = ((processFrames (processFrames s xs).1 ys).1,
         (processFrames s xs).2 ++ (processFrames (processFrames s xs).1 ys).2) := by
  induction xs generalizing s with
  | nil => simp [processFrames]
  | cons x xs ih =>
    simp only [List.cons_append, processFrames_cons, ih, List.append_assoc]

/-- C3: for every non-empty sequence of buffered frames, the flush
concatenation returns one sample array whose length is the sum of the buffered
frames' lengths and whose contents are exactly the frames' samples in arrival
order (list concatenation): no reordering, no gaps, no duplication. -/
theorem combineAudioBuffers_concat_spec (bufs : List (List Sample))
    (hne : bufs ≠ []) :
    combineAudioBuffers bufs = bufs.flatten ∧
    (combineAudioBuffers bufs).length = (bufs.map List.length).sum := by
  refine ⟨combine_eq_flatten bufs, ?_⟩
  rw [combine_eq_flatten bufs]
  exact List.length_flatten bufs

/-- Witness for C3 at a concrete buffered sequence. -/
theorem combineAudioBuffers_concat_spec_witness :
    ([[1, 2], [3]] : List (List Sample)) ≠ [] ∧
    (combineAudioBuffers [[1, 2], [3]] = ([[1, 2], [3]] : List (List Sample)).flatten ∧
     (combineAudioBuffers [[1, 2], [3]]).length
        = (([[1, 2], [3]] : List (List Sample)).map List.length).sum) :=
  ⟨by decide, combineAudioBuffers_concat_spec [[1, 2], [3]] (by decide)⟩

/-- C2: from the `Started` state with an empty buffer, submitting exactly 10
frames triggers exactly one flush (one inference call) and leaves the buffer
empty; submitting an eleventh frame and then calling `stop()` triggers exactly
one further flush whose submitted audio is exactly the leftover frame, and the
buffer ends empty — no buffered audio is discarded on stop. -/
theorem windower_flush_counts (frames : List (List Sample)) (extra : List Sample)
    (s : TranscriberState)
    (hI : s.isInitialized = true) (hT : s.isTranscribing = true)
    (hbuf : s.audioBuffer = []) (hlen : frames.length = 10) :
    ((processFrames s frames).2.length = 1 ∧
     (processFrames s frames).1.audioBuffer = []) ∧
    ((processFrames s (frames ++ [extra])).2.length = 1 ∧
     (stop (processFrames s (frames ++ [extra])).1).2 = [extra] ∧
     (stop (processFrames s (frames ++ [extra])).1).1.audioBuffer = []) := by
  have hne : frames ≠ [] := by
    intro h
    rw [h] at hlen
    simp at hlen
  have h10 : processFrames s frames
      = ({ s with audioBuffer := [] }, [combineAudioBuffers (s.audioBuffer ++ frames)]) :=
    processFrames_fill frames s hI hT (by rw [hbuf]; simpa using hlen) hne
  have hsplit := processFrames_append_split frames [extra] s
  rw [h10] at hsplit
  have hstep : processAudio ({ s with audioBuffer := [] } : TranscriberState) extra
      = ({ s with audioBuffer := [extra] }, []) := by
    have := processAudio_append ({ s with audioBuffer := [] } : TranscriberState)
      extra hI hT (by simp)
    simpa using this
  have hone : processFrames ({ s with audioBuffer := [] } : TranscriberState) [extra]
      = ({ s with audioBuffer := [extra] }, []) := by
    rw [processFrames_cons, hstep]
    simp [processFrames]
  rw [hone] at hsplit
  simp only [List.append_nil] at hsplit
  have hstop : stop ({ s with audioBuffer := [extra] } : TranscriberState)
      = ({ s with isTranscribing := false, audioBuffer := [] },
         [combineAudioBuffers [extra]]) := by
    unfold stop
    simp
  have hcombed : combineAudioBuffers [extra] = extra := by
    rw [combine_eq_flatten]
    simp
  constructor
  · rw [h10]
    exact ⟨rfl, rfl⟩
  · rw [hsplit]
    simp only []
    rw [hstop, hcombed]
    exact ⟨rfl, rfl, rfl⟩

/-- Witness for C2 at ten concrete one-sample frames plus a leftover frame. -/
theorem windower_flush_counts_witness :
    ((true : Bool) = true ∧ (true : Bool) = true ∧
     ([] : List (List Sample)) = [] ∧
     ([[0], [1], [2], [3], [4], [5], [6], [7], [8], [9]] :
        List (List Sample)).length = 10) ∧
    (((processFrames ⟨true, true, []⟩
        [[0], [1], [2], [3], [4], [5], [6], [7], [8], [9]]).2.length = 1 ∧
      (processFrames (⟨true, true, []⟩ : TranscriberState)
        [[0], [1], [2], [3], [4], [5], [6], [7], [8], [9]]).1.audioBuffer = []) ∧
     ((processFrames (⟨true, true, []⟩ : TranscriberState)
        ([[0], [1], [2], [3], [4], [5], [6], [7], [8], [9]] ++ [[7]])).2.length = 1 ∧
      (stop (processFrames (⟨true, true, []⟩ : TranscriberState)
        ([[0], [1], [2], [3], [4], [5], [6], [7], [8], [9]] ++ [[7]])).1).2 = [[7]] ∧
      (stop (processFrames (⟨true, true, []⟩ : TranscriberState)
        ([[0], [1], [2], [3], [4], [5], [6], [7], [8], [9]] ++ [[7]])).1).1.audioBuffer
          = [])) :=
  ⟨⟨rfl, rfl, rfl, by decide⟩,
   windower_flush_counts [[0], [1], [2], [3], [4], [5], [6], [7], [8], [9]]
     [7] ⟨true, true, []⟩ rfl rfl rfl (by decide)⟩

/-- C1 counterexample: a completed inference whose confidence 3/10 is below the
default threshold 1/2 emits NO `stats` event (and no `transcription` event):
both emissions sit inside the confidence gate, so a gated-out result produces
neither event, contrary to the claim that `stats` is always emitted. -/
theorem lowConfidence_emits_no_stats :
    (transcribeAudioEvents none 1 5
      { text := "hello there", confidence := mkRat 3 10 }).2 = none ∧
    (transcribeAudioEvents none 1 5
      { text := "hello there", confidence := mkRat 3 10 }).1 = none := by
  decide

/-- C1 amended: the `transcription` event is emitted exactly when the result
passes gating (non-empty trimmed text and confidence at or above the
threshold), and the `stats` event is emitted exactly when the `transcription`
event is — a passing result produces both events, a gated-out result produces
neither. -/
theorem transcribeAudio_gating_couples_events (t : Option Rat) (pt now : Rat)
    (o : InferenceOutcome) :
    ((transcribeAudioEvents t pt now o).1.isSome
        ↔ (trimString o.text ≠ "" ∧ thresholdOrDefault t ≤ o.confidence)) ∧
    ((transcribeAudioEvents t pt now o).2.isSome
        ↔ (transcribeAudioEvents t pt now o).1.isSome) := by
  unfold transcribeAudioEvents
  split
  · rename_i h
    simp [h]
  · rename_i h
    simp [h]

end Whisper

namespace NatRepr

/-! Decimal rendering of `Nat` is injective.  `startCapture` builds session ids
as the string `session_` followed by `Date.now()`, so distinctness of session
ids reduces to injectivity of `Nat.repr`, proved here by relating the core
fuel-based digit printer to `Nat.digits`. -/

lemma toDigitsCore_eq_digits (f : Nat) :
    ∀ (n : Nat) (acc : List Char), 0 < n → n < f →
    Nat.toDigitsCore 10 f n acc
      = ((Nat.digits 10 n).map Nat.digitChar).reverse ++ acc := by
  induction f with
  | zero =>
    intro n acc h0 hf
    omega
  | succ f ih =>
    intro n acc h0 hf
    rw [show Nat.toDigitsCore 10 (f + 1) n acc
        = (if n / 10 = 0 then Nat.digitChar (n % 10) :: acc
           else Nat.toDigitsCore 10 f (n / 10) (Nat.digitChar (n % 10) :: acc))
      from rfl]
    by_cases hdiv : n / 10 = 0
    · rw [if_pos hdiv, Nat.digits_def' (by norm_num : (1 : Nat) < 10) h0, hdiv]
      simp
    · rw [if_neg hdiv]
      have h0' : 0 < n / 10 := Nat.pos_of_ne_zero hdiv
      have hlt : n / 10 < n := Nat.div_lt_self h0 (by norm_num)
      rw [ih (n / 10) (Nat.digitChar (n % 10) :: acc) h0' (by omega),
        Nat.digits_def' (by norm_num : (1 : Nat) < 10) h0]
      simp

lemma repr_pos_eq (n : Nat) (h0 : 0 < n) :
    Nat.repr n = (((Nat.digits 10 n).map Nat.digitChar).reverse).asString := by
  rw [show Nat.repr n = (Nat.toDigitsCore 10 (n + 1) n []).asString from rfl,
    toDigitsCore_eq_digits (n + 1) n [] h0 (by omega)]
  simp

lemma digitChar_inj_lt10 :
    ∀ a, a < 10 → ∀ b, b < 10 → Nat.digitChar a = Nat.digitChar b → a = b := by
  decide

lemma map_digitChar_inj :
    ∀ (l1 l2 : List Nat), (∀ x ∈ l1, x < 10) → (∀ x ∈ l2, x < 10) →
    l1.map Nat.digitChar = l2.map Nat.digitChar → l1 = l2 := by
  intro l1
  induction l1 with
  | nil =>
    intro l2 _ _ h
    cases l2 with
    | nil => rfl
    | cons b bs => simp at h
  | cons a as ih =>
    intro l2 h1 h2 h
    cases l2 with
    | nil => simp at h
    | cons b bs =>
      simp only [List.map_cons, List.cons.injEq] at h
      have ha : a < 10 := h1 a (by simp)
      have hb : b < 10 := h2 b (by simp)
      rw [digitChar_inj_lt10 a ha b hb h.1,
        ih bs (fun x hx => h1 x (by simp [hx])) (fun x hx => h2 x (by simp [hx])) h.2]

lemma digits_map_ne_zero_case (m : Nat) (hm : 0 < m)
    (h : (("0".data : List Char))
        = ((Nat.digits 10 m).map Nat.digitChar).reverse) : False := by
  have hlen : (Nat.digits 10 m).length = 1 := by
    have := congrArg List.length h
    simpa using this.symm
  obtain ⟨d, hd⟩ := List.length_eq_one.mp hlen
  rw [hd] at h
  have hdc : Nat.digitChar d = '0' := by
    simpa using h.symm
  have hdlt : d < 10 :=
    Nat.digits_lt_base (by norm_num) (by rw [hd]; simp)
  have hd0 : d = 0 :=
    digitChar_inj_lt10 d hdlt 0 (by norm_num) (by simpa using hdc)
  have hofd := Nat.ofDigits_digits 10 m
  rw [hd, hd0] at hofd
  simp [Nat.ofDigits] at hofd
  omega

lemma repr_injective (n m : Nat) (h : Nat.repr n = Nat.repr m) : n = m := by
  rcases Nat.eq_zero_or_pos n with hn | hn
  · rcases Nat.eq_zero_or_pos m with hm | hm
    · omega
    · exfalso
      subst hn
      rw [repr_pos_eq m hm] at h
      have hdata := congrArg String.data h
      rw [show (Nat.repr 0).data = "0".data from rfl] at hdata
      exact digits_map_ne_zero_case m hm (by simpa using hdata)
  · rcases Nat.eq_zero_or_pos m with hm | hm
    · exfalso
      subst hm
      rw [repr_pos_eq n hn] at h
      have hdata := congrArg String.data h.symm
      rw [show (Nat.repr 0).data = "0".data from rfl] at hdata
      exact digits_map_ne_zero_case n hn (by simpa using hdata)
    · rw [repr_pos_eq n hn, repr_pos_eq m hm] at h
      have hdata := congrArg String.data h
      simp only [List.asString] at hdata
      have hrev : ((Nat.digits 10 n).map Nat.digitChar).reverse
          = ((Nat.digits 10 m).map Nat.digitChar).reverse := hdata
      have hmap := List.reverse_injective hrev
      have hdig := map_digitChar_inj (Nat.digits 10 n) (Nat.digits 10 m)
        (fun x hx => Nat.digits_lt_base (by norm_num) hx)
        (fun x hx => Nat.digits_lt_base (by norm_num) hx) hmap
      exact Nat.digits_inj_iff.mp hdig

lemma session_string_inj (t1 t2 : Nat)
    (h : "session_" ++ toString t1 = "session_" ++ toString t2) : t1 = t2 := by
  have hdata := congrArg String.data h
  simp only [String.data_append] at hdata
  have := List.append_cancel_left hdata
  exact repr_injective t1 t2 (String.ext this)

end NatRepr

namespace Capture

open Devices

lemma startCapture_ok_session (s : AudioCaptureState) (o : AudioCaptureOptions)
    (now : Nat) (ad : Except String (List RawDevice)) (as1 : Except String Unit)
    (hok : (startCapture s o now ad as1).2.2 = Except.ok ()) :
    ∃ sess, (startCapture s o now ad as1).1.currentSession = some sess ∧
      sess.id = "session_" ++ toString now := by
  unfold startCapture at hok ⊢
  by_cases hc : s.isCapturing = true
  · rw [if_pos hc] at hok
    simp at hok
  · rw [if_neg hc] at hok ⊢
    rcases hodev : o.deviceId with _ | d <;> rw [hodev] at hok <;>
      simp only [] at hok ⊢
    · rcases hfd : findDefaultMicrophone (getDevices s.dm now ad).2.1
          with _ | mic <;> rw [hfd] at hok <;> simp only [] at hok ⊢
      · simp at hok
      · rcases hfind : List.find? (fun dv => decide (dv.id = mic.id))
            (getDevices (getDevices s.dm now ad).1 now ad).2.1 with _ | dev <;>
          rw [hfind] at hok <;> simp only [] at hok ⊢
        · simp at hok
        · by_cases hni : s.nativeInitialized = true
          · rw [if_pos hni] at hok ⊢
            rcases as1 with e | u <;> simp only [] at hok ⊢
            · simp at hok
            · try rw [hfind]
              simp only []
              exact ⟨_, rfl, rfl⟩
          · rw [if_neg hni] at hok
            simp at hok
    · rcases hfind : List.find? (fun dv => decide (dv.id = d))
          (getDevices s.dm now ad).2.1 with _ | dev <;>
        rw [hfind] at hok <;> simp only [] at hok ⊢
      · simp at hok
      · by_cases hni : s.nativeInitialized = true
        · rw [if_pos hni] at hok ⊢
          rcases as1 with e | u <;> simp only [] at hok ⊢
          · simp at hok
          · try rw [hfind]
            simp only []
            exact ⟨_, rfl, rfl⟩
        · rw [if_neg hni] at hok
          simp at hok

/-- C4 counterexample: a second successful `startCapture` issued after a
successful `stopCapture` but within the same millisecond (`Date.now()` still
1000) produces the SAME session id `session_1000` as the first session — ids
are built solely from `Date.now()`, so they are not unique per process. -/
theorem sessionId_collision_same_millisecond :
    demoStart1.2.2 = Except.ok () ∧
    demoStop1.2.2 = Except.ok () ∧
    demoStart2.2.2 = Except.ok () ∧
    demoStart1.1.currentSession.map AudioCaptureSession.id = some "session_1000" ∧
    demoStart2.1.currentSession.map AudioCaptureSession.id = some "session_1000" :=
  ⟨rfl, rfl, rfl, rfl, rfl⟩

/-- C4 amended: session ids of two successful `startCapture` calls are distinct
whenever the two calls observe distinct `Date.now()` values; two successful
calls within the same millisecond produce identical ids. -/
theorem sessionIds_distinct_of_distinct_times
    (s1 s2 : AudioCaptureState) (o1 o2 : AudioCaptureOptions) (t1 t2 : Nat)
    (ad1 ad2 : Except String (List RawDevice)) (as1 as2 : Except String Unit)
    (sess1 sess2 : AudioCaptureSession)
    (h1 : (startCapture s1 o1 t1 ad1 as1).1.currentSession = some sess1)
    (hok1 : (startCapture s1 o1 t1 ad1 as1).2.2 = Except.ok ())
    (h2 : (startCapture s2 o2 t2 ad2 as2).1.currentSession = some sess2)
    (hok2 : (startCapture s2 o2 t2 ad2 as2).2.2 = Except.ok ())
    (ht : t1 ≠ t2) : sess1.id ≠ sess2.id := by
  obtain ⟨sa, hsa, hida⟩ := startCapture_ok_session s1 o1 t1 ad1 as1 hok1
  obtain ⟨sb, hsb, hidb⟩ := startCapture_ok_session s2 o2 t2 ad2 as2 hok2
  rw [h1] at hsa
  rw [h2] at hsb
  obtain rfl : sess1 = sa := Option.some.inj hsa
  obtain rfl : sess2 = sb := Option.some.inj hsb
  intro hid
  refine ht (NatRepr.session_string_inj t1 t2 ?_)
  rw [← hida, ← hidb]
  exact hid

/-- Witness for the amended C4: a start at `Date.now() = 1000` and a later one
at `Date.now() = 2000` yield distinct session ids. -/
theorem sessionIds_distinct_witness : demoSession1.id ≠ demoSession3.id :=
  sessionIds_distinct_of_distinct_times initialCaptureState demoStop1.1
    { deviceId := none, format := none } { deviceId := none, format := none }
    1000 2000 (Except.ok [demoRawMic]) (Except.ok [demoRawMic])
    (Except.ok ()) (Except.ok ()) demoSession1 demoSession3
    rfl rfl rfl rfl (by decide)

lemma stopCapture_noop (s : AudioCaptureState) (now : Nat)
    (r : Except String Unit) (h : s.isCapturing = false) :
    stopCapture s now r = (s, [], Except.ok ()) := by
  unfold stopCapture
  rw [h]
  simp

lemma dispose_ok_shape (s : AudioCaptureState) (now : Nat) :
    (dispose s now (Except.ok ()) (Except.ok ()) (Except.ok ())).1.isCapturing
        = false ∧
    (dispose s now (Except.ok ()) (Except.ok ()) (Except.ok ())).1.nativeInitialized
        = false ∧
    (dispose s now (Except.ok ()) (Except.ok ()) (Except.ok ())).2.2
        = Except.ok () := by
  rcases s with ⟨ni, ⟨dmni, cache, ts⟩, sess, cap⟩
  rcases ni <;> rcases dmni <;> rcases cap <;>
    simp [dispose, stopCapture]

lemma startCapture_uninit_fails (s : AudioCaptureState)
    (o : AudioCaptureOptions) (now : Nat)
    (ad : Except String (List RawDevice)) (as1 : Except String Unit)
    (hni : s.nativeInitialized = false) (hcap : s.isCapturing = false) :
    resultOk (startCapture s o now ad as1).2.2 = false := by
  unfold startCapture
  simp only [hcap, hni, Bool.false_eq_true, if_false]
  repeat' split
  all_goals simp [resultOk]

/-- C5 counterexample: after a completed `dispose()` on a fresh `AudioCapture`,
a subsequent `stopCapture()` resolves successfully as a no-op — it does not
fail with a `DisposedError` (no such error exists anywhere in the code). -/
theorem stopCapture_after_dispose_succeeds :
    (stopCapture (dispose initialCaptureState 0
        (Except.ok ()) (Except.ok ()) (Except.ok ())).1 0 (Except.ok ())).2.2
      = Except.ok () ∧
    (stopCapture (dispose initialCaptureState 0
        (Except.ok ()) (Except.ok ()) (Except.ok ())).1 0 (Except.ok ())).1
      = (dispose initialCaptureState 0
          (Except.ok ()) (Except.ok ()) (Except.ok ())).1 :=
  ⟨rfl, rfl⟩

/-- C5 amended: after `dispose()` completes, the object records no disposed
flag and no call fails with a `DisposedError`: `stopCapture` resolves
successfully as a pure no-op (no state change, no events), and `startCapture`
does fail — but through the ordinary `START_FAILED` path (empty device list or
uninitialized native handle), not through any dispose-specific error. -/
theorem post_dispose_behavior (s : AudioCaptureState) (now now2 : Nat)
    (r2 : Except String Unit) (o : AudioCaptureOptions)
    (ad : Except String (List RawDevice)) (as1 : Except String Unit) :
    stopCapture (dispose s now (Except.ok ()) (Except.ok ()) (Except.ok ())).1
        now2 r2
      = ((dispose s now (Except.ok ()) (Except.ok ()) (Except.ok ())).1, [],
         Except.ok ()) ∧
    resultOk (startCapture
        (dispose s now (Except.ok ()) (Except.ok ()) (Except.ok ())).1
        o now2 ad as1).2.2 = false := by
  obtain ⟨hcap, hni, _⟩ := dispose_ok_shape s now
  exact ⟨stopCapture_noop _ now2 r2 hcap,
    startCapture_uninit_fails _ o now2 ad as1 hni hcap⟩

end Capture

namespace Devices

/-- C8: on a cache miss, if the provider enumeration call fails, `getDevices`
returns an empty device list, reports the failure through the side channel
(the logged message list is non-empty), and leaves the cached state unchanged;
the function returns normally, so the exception is never propagated to the
caller. -/
theorem getDevices_failure_degrades (s : DeviceManagerState) (now : Nat)
    (e : String)
    (hmiss : ¬(0 < s.cachedDevices.length ∧ now - s.lastRefreshTime < 5000)) :
    (getDevices s now (Except.error e)).2.1 = [] ∧
    (getDevices s now (Except.error e)).2.2 ≠ [] ∧
    (getDevices s now (Except.error e)).1 = s := by
  by_cases hni : s.nativeInitialized = true <;>
    simp [getDevices, hmiss, hni]

/-- Witness for C8 at a fresh manager whose provider call fails. -/
theorem getDevices_failure_degrades_witness :
    (¬(0 < ((⟨true, [], 0⟩ : DeviceManagerState)).cachedDevices.length ∧
        (7 : Nat) - ((⟨true, [], 0⟩ : DeviceManagerState)).lastRefreshTime < 5000)) ∧
    ((getDevices ⟨true, [], 0⟩ 7 (Except.error "boom")).2.1 = [] ∧
     (getDevices ⟨true, [], 0⟩ 7 (Except.error "boom")).2.2 ≠ [] ∧
     (getDevices ⟨true, [], 0⟩ 7 (Except.error "boom")).1
        = (⟨true, [], 0⟩ : DeviceManagerState)) :=
  ⟨by decide, getDevices_failure_degrades ⟨true, [], 0⟩ 7 "boom" (by decide)⟩

/-- C10: an empty cached snapshot is never served: whenever the cached device
list is empty, `getDevices` consults the provider — even when
`now - lastRefreshTime` is still inside the TTL window — returning the freshly
processed enumeration on success and the empty-plus-logged degradation on
failure; the TTL short-circuit only ever serves non-empty snapshots. -/
theorem getDevices_empty_cache_requeries (s : DeviceManagerState) (now : Nat)
    (ds : List RawDevice) (e : String)
    (hempty : s.cachedDevices = []) (hinit : s.nativeInitialized = true) :
    getDevices s now (Except.ok ds)
      = ({ s with cachedDevices := ds.map processDevice, lastRefreshTime := now },
         ds.map processDevice, []) ∧
    getDevices s now (Except.error e)
      = (s, [], ["Failed to get audio devices: " ++ e]) := by
  constructor <;> simp [getDevices, hempty, hinit]

/-- Witness for C10: the cache was refreshed (to an empty snapshot) at time
9999 and the next call happens at 10000, well inside the 5-second TTL, yet the
provider is consulted again. -/
theorem getDevices_empty_cache_requeries_witness :
    (((⟨true, [], 9999⟩ : DeviceManagerState)).cachedDevices = [] ∧
     ((⟨true, [], 9999⟩ : DeviceManagerState)).nativeInitialized = true) ∧
    (getDevices ⟨true, [], 9999⟩ 10000
        (Except.ok [⟨"mic1", "Mic", "microphone", some true, some true,
                     some [], some 1, some 48000, some 8000⟩])
      = (⟨true, [⟨"mic1", "Mic", "microphone", some true, some true,
                  some [], some 1, some 48000, some 8000⟩].map processDevice,
          10000⟩,
         [⟨"mic1", "Mic", "microphone", some true, some true,
           some [], some 1, some 48000, some 8000⟩].map processDevice, []) ∧
     getDevices ⟨true, [], 9999⟩ 10000 (Except.error "boom")
      = (⟨true, [], 9999⟩, [], ["Failed to get audio devices: " ++ "boom"])) :=
  ⟨⟨rfl, rfl⟩,
   getDevices_empty_cache_requeries ⟨true, [], 9999⟩ 10000
     [⟨"mic1", "Mic", "microphone", some true, some true,
       some [], some 1, some 48000, some 8000⟩] "boom" rfl rfl⟩

end Devices

namespace Processor

/-- C9: when all three stages are disabled in the configuration, `processAudio`
on an initialized processor emits a `processed` frame whose samples are exactly
the input samples — the chain is the identity, whatever the per-stage DSP
transforms would do — together with the usual `stats` event. -/
theorem processAudio_all_disabled_identity (st : ProcessorRunState)
    (cfg : AudioProcessorConfig)
    (ec ns agc : List Sample → Nat → Nat → List Sample)
    (audioData : List Sample) (sampleRate channels now : Nat) (pt : Rat)
    (hinit : st.isInitialized = true)
    (hec : stageEnabled cfg.echoCancellation EchoCancellationCfg.enabled = false)
    (hns : stageEnabled cfg.noiseSuppression NoiseSuppressionCfg.enabled = false)
    (hagc : stageEnabled cfg.automaticGainControl
        AutomaticGainControlCfg.enabled = false) :
    processorProcessAudio st cfg ec ns agc audioData sampleRate channels now pt
      = Except.ok
          ({ isInitialized := true, isProcessing := true },
           { data := audioData, sampleRate := sampleRate
             channels := channels, timestamp := now },
           { processingTime := pt, samplesProcessed := audioData.length
             echoSuppression := 0, noiseSuppression := 0
             gainAdjustment := 0 }) := by
  unfold processorProcessAudio applyProcessing
  simp [hinit, hec, hns, hagc]

/-- Witness for C9: an all-disabled configuration on the placeholder stages
passes the concrete frame `[1, 2, 3]` through bit-identically. -/
theorem processAudio_all_disabled_identity_witness :
    ((⟨true, false⟩ : ProcessorRunState).isInitialized = true ∧
     stageEnabled (some (⟨false, 0, 256⟩ : EchoCancellationCfg))
        EchoCancellationCfg.enabled = false ∧
     stageEnabled (some (⟨false, "moderate"⟩ : NoiseSuppressionCfg))
        NoiseSuppressionCfg.enabled = false ∧
     stageEnabled (some (⟨false, -18, 9⟩ : AutomaticGainControlCfg))
        AutomaticGainControlCfg.enabled = false) ∧
    processorProcessAudio ⟨true, false⟩
        ⟨some ⟨false, 0, 256⟩, some ⟨false, "moderate"⟩,
         some ⟨false, -18, 9⟩, some true⟩
        placeholderStage placeholderStage placeholderStage
        [1, 2, 3] 16000 1 5000 2
      = Except.ok
          (⟨true, true⟩,
           ⟨[1, 2, 3], 16000, 1, 5000⟩,
           ⟨2, 3, 0, 0, 0⟩) :=
  ⟨⟨rfl, rfl, rfl, rfl⟩,
   processAudio_all_disabled_identity ⟨true, false⟩
     ⟨some ⟨false, 0, 256⟩, some ⟨false, "moderate"⟩,
      some ⟨false, -18, 9⟩, some true⟩
     placeholderStage placeholderStage placeholderStage
     [1, 2, 3] 16000 1 5000 2 rfl rfl rfl rfl⟩

/-- C6 counterexample: `getConfig` copies only the top level, so mutating a
nested stage object reached through the returned copy (here: setting
`echoCancellation.enabled` to false through the copy allocated at address 1)
changes the component's internal configuration as observed by a later read of
the internal object at address 0. -/
theorem getConfig_nested_alias_leak :
    readConfig
        (setEchoEnabled (getConfigShallow demoStore 0 1)
          ((getConfigShallow demoStore 0 1).top 1).echoCancellationRef false) 0
      ≠ readConfig demoStore 0 := by
  decide

/-- C6 amended: the copy `getConfig` returns is shallow: mutating the returned
object's own top-level fields (here `simdOptimization`) never changes the
internal configuration, but mutating a nested stage-configuration object
through the returned copy is visible in the internal configuration, because
the nested references are shared. -/
theorem getConfig_shallow_copy_semantics (h : Store)
    (internalRef freshRef : Nat) (b : Bool) (hfresh : freshRef ≠ internalRef) :
    readConfig (setTopSimd (getConfigShallow h internalRef freshRef) freshRef b)
        internalRef
      = readConfig h internalRef ∧
    readConfig
        (setEchoEnabled (getConfigShallow h internalRef freshRef)
          ((getConfigShallow h internalRef freshRef).top freshRef).echoCancellationRef
          b)
        internalRef
      = { readConfig h internalRef with
          echoCancellation :=
            { h.echoCancellation (h.top internalRef).echoCancellationRef with
              enabled := b } } := by
  unfold readConfig getConfigShallow setTopSimd setEchoEnabled
  simp [Ne.symm hfresh]

/-- Witness for the amended C6 at the constructor-default store. -/
theorem getConfig_shallow_copy_semantics_witness :
    ((1 : Nat) ≠ 0) ∧
    (readConfig (setTopSimd (getConfigShallow demoStore 0 1) 1 false) 0
        = readConfig demoStore 0 ∧
     readConfig
        (setEchoEnabled (getConfigShallow demoStore 0 1)
          ((getConfigShallow demoStore 0 1).top 1).echoCancellationRef false) 0
        = { readConfig demoStore 0 with
            echoCancellation :=
              { demoStore.echoCancellation (demoStore.top 0).echoCancellationRef with
                enabled := false } }) :=
  ⟨by decide, getConfig_shallow_copy_semantics demoStore 0 1 false (by decide)⟩

end Processor

namespace Models

/-- C7: for every registered model that is not yet downloaded, a failing
download provider makes `downloadModel` propagate the error and leave the
model map completely unchanged — in particular the model is still looked up
with `isDownloaded = false` and its `localPath` untouched — so an immediate
retry starts from the identical state. -/
theorem downloadModel_failure_atomic (models : ModelMap)
    (downloadPath name e : String) (m : WhisperModel)
    (hreg : lookupModel models name = some m)
    (hnd : m.isDownloaded = false) :
    (downloadModel models downloadPath name (Except.error e)).1 = models ∧
    (downloadModel models downloadPath name (Except.error e)).2
      = Except.error e ∧
    lookupModel (downloadModel models downloadPath name (Except.error e)).1 name
      = some m := by
  unfold downloadModel
  rw [hreg]
  simp [hnd, hreg]

/-- Witness for C7: a failing download of the registered `tiny` model. -/
theorem downloadModel_failure_atomic_witness :
    (lookupModel defaultModels "tiny"
      = some { name := "tiny", size := "39 MB", language := "multilingual"
               url := "https://huggingface.co/ggerganov/whisper.cpp/resolve/main/ggml-tiny.bin"
               localPath := none, isDownloaded := false } ∧
     ({ name := "tiny", size := "39 MB", language := "multilingual"
        url := "https://huggingface.co/ggerganov/whisper.cpp/resolve/main/ggml-tiny.bin"
        localPath := none, isDownloaded := false } : WhisperModel).isDownloaded
       = false) ∧
    ((downloadModel defaultModels "./models" "tiny"
        (Except.error "network down")).1 = defaultModels ∧
     (downloadModel defaultModels "./models" "tiny"
        (Except.error "network down")).2 = Except.error "network down" ∧
     lookupModel (downloadModel defaultModels "./models" "tiny"
        (Except.error "network down")).1 "tiny"
      = some { name := "tiny", size := "39 MB", language := "multilingual"
               url := "https://huggingface.co/ggerganov/whisper.cpp/resolve/main/ggml-tiny.bin"
               localPath := none, isDownloaded := false }) :=
  ⟨⟨rfl, rfl⟩,
   downloadModel_failure_atomic defaultModels "./models" "tiny" "network down"
     { name := "tiny", size := "39 MB", language := "multilingual"
       url := "https://huggingface.co/ggerganov/whisper.cpp/resolve/main/ggml-tiny.bin"
       localPath := none, isDownloaded := false } rfl rfl⟩

end Models
